import Mathlib

/-!
Shallow embedding of `src/main.py` (inference gateway: OpenAI-compatible
HTTP proxy with echo fallback) and verification of its specification.

Python JSON values are modelled by `Json` (numbers restricted to integers,
which covers every value the gateway itself manipulates); a raised Python
exception that the handler does not catch is modelled by the `Outcome.crash`
constructor; the outcome of the single outbound HTTP call is modelled by an
explicit result value (`NonStreamResult` / `StreamResult` / `ModelsResult`)
passed in as part of the request environment.
-/

namespace Gateway

/-- Model of a decoded Python JSON value (`json.loads` result). -/
inductive Json where
  | null : Json
  | bool : Bool → Json
  | num : Int → Json
  | str : String → Json
  | arr : List Json → Json
  | obj : List (String × Json) → Json
deriving Repr

/-- Python `d.get(k)`: first binding of key `k` in an object's field list. -/
def lookupField (fs : List (String × Json)) (k : String) : Option Json :=
  match fs with
  | [] => none
  | (k', v) :: rest => if k' = k then some v else lookupField rest k

/-- Python `d.get(k, default)` on a Python dict. -/
def getD (fs : List (String × Json)) (k : String) (dflt : Json) : Json :=
  match lookupField fs k with
  | some v => v
  | none => dflt

/-- Python `d[k] = v` on a Python dict: overwrite in place, else append. -/
def setField (fs : List (String × Json)) (k : String) (v : Json) :
    List (String × Json) :=
  match fs with
  | [] => [(k, v)]
  | (k', v') :: rest =>
    if k' = k then (k, v) :: rest else (k', v') :: setField rest k v

/-- Python truthiness of a JSON value (`if x:`). -/
def truthy : Json → Bool
  | .null => false
  | .bool b => b
  | .num n => n != 0
  | .str s => s != ""
  | .arr xs => !xs.isEmpty
  | .obj fs => !fs.isEmpty

/-- Lower-case hex digit. -/
def hexDigit (n : Nat) : Char :=
  if n < 10 then Char.ofNat (48 + n) else Char.ofNat (87 + n)

/-- Four lower-case hex digits, as in Python's `\uXXXX` escapes. -/
def hex4 (n : Nat) : String :=
  String.mk [hexDigit (n / 4096 % 16), hexDigit (n / 256 % 16),
             hexDigit (n / 16 % 16), hexDigit (n % 16)]

/-- Escaping per `json.dumps` of one character (`ensure_ascii=True` default). -/
def escapeChar (c : Char) : String :=
  if c = '"' then "\\\""
  else if c = '\\' then "\\\\"
  else if c = '\n' then "\\n"
  else if c = '\r' then "\\r"
  else if c = '\t' then "\\t"
  else if c = '\x08' then "\\b"
  else if c = '\x0c' then "\\f"
  else if c.toNat < 32 ∨ c.toNat > 126 then
    if c.toNat < 65536 then "\\u" ++ hex4 c.toNat
    else
      "\\u" ++ hex4 (55296 + (c.toNat - 65536) / 1024) ++
      "\\u" ++ hex4 (56320 + (c.toNat - 65536) % 1024)
  else String.singleton c

/-- Serialization of a string literal per `json.dumps`. -/
def dumpStr (s : String) : String :=
  "\"" ++ String.join (s.data.map escapeChar) ++ "\""

mutual

/-- Serialization `json.dumps(x)` with Python's default separators. -/
def dumps : Json → String
  | .null => "null"
  | .bool b => if b then "true" else "false"
  | .num n => toString n
  | .str s => dumpStr s
  | .arr xs => "[" ++ dumpsArr xs ++ "]"
  | .obj fs => "\x7b" ++ dumpsObj fs ++ "\x7d"

/-- Comma-joined serialization of an array's elements. -/
def dumpsArr : List Json → String
  | [] => ""
  | [x] => dumps x
  | x :: y :: rest => dumps x ++ ", " ++ dumpsArr (y :: rest)

/-- Comma-joined serialization of an object's fields. -/
def dumpsObj : List (String × Json) → String
  | [] => ""
  | [(k, v)] => dumpStr k ++ ": " ++ dumps v
  | (k, v) :: f :: rest => dumpStr k ++ ": " ++ dumps v ++ ", " ++ dumpsObj (f :: rest)

end

/-- The process-wide counters of `main.Metrics`.  Latency is modelled by a
natural number of milliseconds (the code accumulates a nonnegative float). -/
structure Metrics where
  request_count : Nat
  error_count : Nat
  total_latency_ms : Nat
  prompt_tokens_total : Int
  completion_tokens_total : Int
deriving Repr, DecidableEq

/-- Embeds `GatewayHandler._record_metrics` with integer token counts. -/
def record_metrics (m : Metrics) (status : Nat) (latency : Nat) (pt ct : Int) :
    Metrics :=
  { request_count := m.request_count + 1
    error_count := if 400 ≤ status then m.error_count + 1 else m.error_count
    total_latency_ms := m.total_latency_ms + latency
    prompt_tokens_total := m.prompt_tokens_total + pt
    completion_tokens_total := m.completion_tokens_total + ct }

/-- A JSON value Python can add to an `int` counter: `int` or `bool`. -/
def tokenInt : Json → Option Int
  | .num n => some n
  | .bool b => some (if b then 1 else 0)
  | _ => none

/-- Embeds `GatewayHandler._record_metrics` applied to raw JSON token values, as in
`_proxy_non_stream`: increments happen in source order, and a non-addable
value raises `TypeError` mid-update, leaving the earlier increments applied. -/
def record_metrics_py (m : Metrics) (status latency : Nat) (ptJ ctJ : Json) :
    Metrics × Option String :=
  let m1 := { m with request_count := m.request_count + 1 }
  let m2 := { m1 with total_latency_ms := m1.total_latency_ms + latency }
  match tokenInt ptJ with
  | none => (m2, some "TypeError")
  | some pt =>
    let m3 := { m2 with prompt_tokens_total := m2.prompt_tokens_total + pt }
    match tokenInt ctJ with
    | none => (m3, some "TypeError")
    | some ct =>
      let m4 := { m3 with completion_tokens_total := m3.completion_tokens_total + ct }
      (if 400 ≤ status then { m4 with error_count := m4.error_count + 1 } else m4, none)

/-- What the handler sends back for one request: a buffered JSON response
(`_send_json`, with its optional request-id header argument), a streamed SSE
response (status line, headers, then raw body bytes), a streamed response
corrupted mid-relay (`sseThenJson`: the status line, headers and
`partialBody` were already written when the iteration raised, and the
`except` clause of `_handle_backend` then wrote a whole `_send_json`
response — status `errStatus`, body `errData`, id argument `rid` — into the
same open socket), or an uncaught Python exception escaping the handler
(no response is produced). -/
inductive Outcome where
  | jsonResp (status : Nat) (data : Json) (rid : Option String)
  | sseResp (status : Nat) (headers : List (String × String)) (body : String)
  | sseThenJson (status : Nat) (headers : List (String × String))
      (partialBody : String) (errStatus : Nat) (errData : Json) (rid : Option String)
  | crash (msg : String)

/-- A rendered HTTP response on the wire. -/
structure HttpResponse where
  status : Nat
  headers : List (String × String)
  body : String

/-- Headers emitted by `_send_json`: content type, byte length, and the
`X-Request-ID` header only when a truthy request id was passed. -/
def sendJsonHeaders (body : String) (rid : Option String) : List (String × String) :=
  [("Content-Type", "application/json"),
   ("Content-Length", toString body.utf8ByteSize)] ++
  (match rid with
   | some r => if r = "" then [] else [("X-Request-ID", r)]
   | none => [])

/-- Render an outcome as the single well-formed HTTP response on the wire,
when the outcome is one: a crash sent nothing, and a stream with a whole
error response written into its open body is no single well-formed
response (the constructor itself carries its full structure). -/
def Outcome.render : Outcome → Option HttpResponse
  | .jsonResp st d rid => some ⟨st, sendJsonHeaders (dumps d) rid, dumps d⟩
  | .sseResp st hs b => some ⟨st, hs, b⟩
  | .sseThenJson _ _ _ _ _ _ => none
  | .crash _ => none

/-- A gateway error body `{"error": code}`. -/
def errBody (code : String) : Json := .obj [("error", .str code)]

/-- Characters Python's `str.split()` treats as (ASCII) whitespace. -/
def isPySpace (c : Char) : Bool :=
  c = ' ' || c = '\t' || c = '\n' || c = '\r' || c = '\x0b' || c = '\x0c'

/-- Token counting over the characters of a string; the flag records
whether the previous character was inside a token. -/
def countTokensAux : List Char → Bool → Nat
  | [], _ => 0
  | c :: rest, inWord =>
    if isPySpace c then countTokensAux rest false
    else (if inWord then 0 else 1) + countTokensAux rest true

/-- Python `len(s.split())`: number of maximal nonempty whitespace-free runs. -/
def countTokens (s : String) : Nat := countTokensAux s.data false

/-- Embeds `main.build_response`: the OpenAI-shaped completion object. -/
def build_response (request_id : String) (content : String) (model : String)
    (prompt_tokens completion_tokens : Nat) : Json :=
  .obj [("id", .str request_id),
        ("object", .str "chat.completion"),
        ("model", .str model),
        ("choices", .arr [.obj [
          ("index", .num 0),
          ("message", .obj [("role", .str "assistant"), ("content", .str content)]),
          ("finish_reason", .str "stop")]]),
        ("usage", .obj [
          ("prompt_tokens", .num prompt_tokens),
          ("completion_tokens", .num completion_tokens),
          ("total_tokens", .num (prompt_tokens + completion_tokens))])]

/-- The single chunk object built by `_send_sse_echo`. -/
def sseEchoChunk (request_id : String) (content : String) : Json :=
  .obj [("id", .str request_id),
        ("object", .str "chat.completion.chunk"),
        ("choices", .arr [.obj [
          ("index", .num 0),
          ("delta", .obj [("role", .str "assistant"), ("content", .str content)]),
          ("finish_reason", .str "stop")]])]

/-- Embeds `GatewayHandler._send_sse_echo`: one data frame, then the DONE frame. -/
def send_sse_echo (request_id : String) (content : String) : Outcome :=
  .sseResp 200
    [("Content-Type", "text/event-stream"), ("Cache-Control", "no-cache"),
     ("X-Request-ID", request_id)]
    ("data: " ++ dumps (sseEchoChunk request_id content) ++ "\n\n" ++
     "data: [DONE]\n\n")

/-- The prompt-extraction loop of `_handle_chat_completions`, already walking
the reversed `messages` list: the first entry whose `role` equals `"user"`
yields its `content` (default `""`); a non-dict entry raises
`AttributeError` at `msg.get`. -/
def extractPromptRev : List Json → Except String Json
  | [] => .ok (.str "")
  | msg :: rest =>
    match msg with
    | .obj fs =>
      match lookupField fs "role" with
      | some (.str r) =>
        if r = "user" then .ok (getD fs "content" (.str ""))
        else extractPromptRev rest
      | _ => extractPromptRev rest
    | _ => .error "AttributeError"

/-- Prompt extraction over `reversed(messages)`. -/
def extractPrompt (msgs : List Json) : Except String Json :=
  extractPromptRev msgs.reverse

/-- Embeds `GatewayHandler._handle_echo`.  The prompt is the raw JSON value the
extraction loop produced; a non-string prompt raises `AttributeError` at
`prompt.split()` before anything is sent or recorded. -/
def handle_echo (request_id : String) (prompt : Json) (stream : Bool)
    (latency : Nat) (m : Metrics) : Outcome × Metrics :=
  match prompt with
  | .str p =>
    let content := "Echo: " ++ p
    let pt := countTokens p
    let ct := countTokens content
    if stream then
      (send_sse_echo request_id content, record_metrics m 200 latency pt ct)
    else
      (.jsonResp 200 (build_response request_id content "echo" pt ct)
         (some request_id),
       record_metrics m 200 latency pt ct)
  | _ => (.crash "AttributeError", m)

/-- Result of the outbound non-streaming POST to the backend: a raised
timeout, another raised connection error, or a response whose body either
parses as JSON (`some`) or does not (`none`, making `resp.json()` raise). -/
inductive NonStreamResult where
  | timeout
  | connError
  | resp (status : Nat) (body : Option Json)

/-- Failure kind an already-opened stream's iteration can raise mid-relay:
a read timeout (`httpx.TimeoutException`) or another connection-level
failure (`httpx.RequestError`). -/
inductive StreamFailure where
  | timeout
  | connError

/-- Result of the outbound streaming POST.  `timeout`/`connError` are
raised by the call before anything was written to the client (connect, or
while awaiting the upstream status); `resp` is an upstream response whose
line iteration completes; `respPartial` is an upstream response whose
`resp.iter_lines()` raises `failure` after yielding `lines` — a failure
that is only reached when the 5xx guard passed, i.e. after the 200 SSE
headers and those lines were already written to the client. -/
inductive StreamResult where
  | timeout
  | connError
  | resp (status : Nat) (lines : List String)
  | respPartial (status : Nat) (lines : List String) (failure : StreamFailure)

/-- Result of the outbound GET for `/v1/models`. -/
inductive ModelsResult where
  | timeout
  | connError
  | resp (status : Nat) (body : Option Json)

/-- Embeds `GatewayHandler._proxy_non_stream` after the POST returned a response.
A non-dict decoded body raises `TypeError` at `data["id"] = request_id`; a
non-dict `usage` raises `AttributeError` at `usage.get`; non-integer token
values raise `TypeError` inside `_record_metrics` after its first two
increments. -/
def proxy_non_stream (request_id : String) (status : Nat) (bodyOpt : Option Json)
    (latency : Nat) (m : Metrics) : Outcome × Metrics :=
  if 500 ≤ status then
    (.jsonResp 502 (errBody "backend_error") (some request_id),
     record_metrics m 502 latency 0 0)
  else
    match bodyOpt with
    | none =>
      (.jsonResp 502 (errBody "backend_invalid_response") (some request_id),
       record_metrics m 502 latency 0 0)
    | some data =>
      match data with
      | .obj fs =>
        let fs2 := setField fs "id" (.str request_id)
        match getD fs2 "usage" (.obj []) with
        | .obj us =>
          let ptJ := getD us "prompt_tokens" (.num 0)
          let ctJ := getD us "completion_tokens" (.num 0)
          match record_metrics_py m status latency ptJ ctJ with
          | (m2, some e) => (.crash e, m2)
          | (m2, none) => (.jsonResp status (.obj fs2) (some request_id), m2)
        | _ => (.crash "AttributeError", m)
      | _ => (.crash "TypeError", m)

/-- Embeds `GatewayHandler._proxy_stream` after the streaming POST opened: a 5xx
upstream status yields a buffered 502, otherwise the upstream lines are
relayed each followed by a newline, with one trailing blank line. -/
def proxy_stream (request_id : String) (status : Nat) (lines : List String)
    (latency : Nat) (m : Metrics) : Outcome × Metrics :=
  if 500 ≤ status then
    (.jsonResp 502 (errBody "backend_error") (some request_id),
     record_metrics m 502 latency 0 0)
  else
    (.sseResp 200
       [("Content-Type", "text/event-stream"), ("Cache-Control", "no-cache"),
        ("X-Request-ID", request_id)]
       (String.join (lines.map (fun l => l ++ "\n")) ++ "\n"),
     record_metrics m 200 latency 0 0)

/-- Embeds `GatewayHandler._proxy_stream` on a stream whose iteration
raises `failure` after yielding `lines`, together with the `except` clause
of `_handle_backend` that catches it.  The 5xx guard still runs first,
before any relay, so for a 5xx upstream status the buffered 502 is sent and
the pending failure is never reached.  Otherwise the 200 status line, the
SSE headers and the yielded lines were already written when the exception
propagates, and the `except` clause records the translated status and
writes a whole `_send_json` error response into the same open socket. -/
def proxy_stream_midfail (request_id : String) (status : Nat)
    (lines : List String) (failure : StreamFailure) (latency : Nat)
    (m : Metrics) : Outcome × Metrics :=
  if 500 ≤ status then
    (.jsonResp 502 (errBody "backend_error") (some request_id),
     record_metrics m 502 latency 0 0)
  else
    match failure with
    | .timeout =>
      (.sseThenJson 200
         [("Content-Type", "text/event-stream"), ("Cache-Control", "no-cache"),
          ("X-Request-ID", request_id)]
         (String.join (lines.map (fun l => l ++ "\n")))
         504 (errBody "gateway_timeout") (some request_id),
       record_metrics m 504 latency 0 0)
    | .connError =>
      (.sseThenJson 200
         [("Content-Type", "text/event-stream"), ("Cache-Control", "no-cache"),
          ("X-Request-ID", request_id)]
         (String.join (lines.map (fun l => l ++ "\n")))
         502 (errBody "backend_unavailable") (some request_id),
       record_metrics m 502 latency 0 0)

/-- The per-request environment: the configured backend URL and the results
the single outbound HTTP call of each kind would produce, plus the elapsed
request latency observed at recording time. -/
structure Env where
  backend_url : Option String
  non_stream_result : NonStreamResult
  stream_result : StreamResult
  models_result : ModelsResult
  latency : Nat

/-- Python truthiness of `settings.backend_url` (`if settings.backend_url:`). -/
def optTruthy : Option String → Bool
  | some s => s != ""
  | none => false

/-- Embeds `GatewayHandler._handle_backend`: dispatch to the streaming or buffered
proxy and translate a raised `httpx.TimeoutException` to 504
`gateway_timeout` and any other raised `httpx.RequestError` to 502
`backend_unavailable`.  When the streaming relay raises mid-body, the same
`except` clauses fire after the 200 response has started; that combined
behavior is `proxy_stream_midfail`. -/
def handle_backend (request_id : String) (stream : Bool) (env : Env)
    (m : Metrics) : Outcome × Metrics :=
  if stream then
    match env.stream_result with
    | .timeout =>
      (.jsonResp 504 (errBody "gateway_timeout") (some request_id),
       record_metrics m 504 env.latency 0 0)
    | .connError =>
      (.jsonResp 502 (errBody "backend_unavailable") (some request_id),
       record_metrics m 502 env.latency 0 0)
    | .resp st lines => proxy_stream request_id st lines env.latency m
    | .respPartial st lines f => proxy_stream_midfail request_id st lines f env.latency m
  else
    match env.non_stream_result with
    | .timeout =>
      (.jsonResp 504 (errBody "gateway_timeout") (some request_id),
       record_metrics m 504 env.latency 0 0)
    | .connError =>
      (.jsonResp 502 (errBody "backend_unavailable") (some request_id),
       record_metrics m 502 env.latency 0 0)
    | .resp st b => proxy_non_stream request_id st b env.latency m

/-- Embeds `GatewayHandler._handle_chat_completions` given the resolved request id
and the parse result of the request body (`none` when `json.loads` raised).
A body that is valid JSON but not a dict raises `AttributeError` at
`body.get("messages")`. -/
def handle_chat_completions (request_id : String) (bodyParse : Option Json)
    (env : Env) (m : Metrics) : Outcome × Metrics :=
  match bodyParse with
  | none =>
    (.jsonResp 400 (errBody "invalid_json") none,
     record_metrics m 400 env.latency 0 0)
  | some body =>
    match body with
    | .obj fs =>
      match lookupField fs "messages" with
      | some (.arr msgs) =>
        if msgs.isEmpty then
          (.jsonResp 400 (errBody "invalid_messages") none,
           record_metrics m 400 env.latency 0 0)
        else
          let stream := truthy (getD fs "stream" (.bool false))
          match extractPrompt msgs with
          | .error e => (.crash e, m)
          | .ok prompt =>
            if optTruthy env.backend_url then
              handle_backend request_id stream env m
            else
              handle_echo request_id prompt stream env.latency m
      | _ =>
        (.jsonResp 400 (errBody "invalid_messages") none,
         record_metrics m 400 env.latency 0 0)
    | _ => (.crash "AttributeError", m)

/-- The outbound HTTP call a proxy issues: method, target URL, timeout. -/
structure OutboundCall where
  method : String
  url : String
  timeout : Nat
deriving Repr, DecidableEq

/-- Python `s.rstrip("/")`: drop all trailing slashes. -/
def rstripSlash (s : String) : String :=
  String.mk ((s.data.reverse.dropWhile (fun c => c = '/')).reverse)

/-- Embeds `GatewayHandler._proxy_models`: forward GET `/v1/models` with a 10-unit
timeout; a non-JSON upstream body makes `resp.json()` raise an uncaught
`JSONDecodeError`. -/
def proxy_models (base : String) (res : ModelsResult) : OutboundCall × Outcome :=
  (⟨"GET", rstripSlash base ++ "/v1/models", 10⟩,
   match res with
   | .resp st (some j) => .jsonResp st j none
   | .resp _ none => .crash "JSONDecodeError"
   | .timeout => .jsonResp 504 (errBody "gateway_timeout") none
   | .connError => .jsonResp 502 (errBody "backend_unavailable") none)

/-- The static model listing returned without a configured backend. -/
def echo_models_listing : Json :=
  .obj [("object", .str "list"),
        ("data", .arr [.obj [
          ("id", .str "echo"),
          ("object", .str "model"),
          ("owned_by", .str "inference-gateway")]])]

/-- The `/metrics` response body (latency rounding is identity here since
latency is modelled by a natural number). -/
def metricsBody (m : Metrics) : Json :=
  .obj [("request_count", .num m.request_count),
        ("error_count", .num m.error_count),
        ("total_latency_ms", .num m.total_latency_ms),
        ("prompt_tokens_total", .num m.prompt_tokens_total),
        ("completion_tokens_total", .num m.completion_tokens_total)]

/-- Embeds `GatewayHandler.do_GET`. -/
def do_GET (path : String) (env : Env) (m : Metrics) : Outcome × Metrics :=
  if path = "/healthz" then
    (.jsonResp 200 (.obj [("status", .str "ok")]) none, m)
  else if path = "/v1/models" then
    if optTruthy env.backend_url then
      ((proxy_models (env.backend_url.getD "") env.models_result).snd, m)
    else
      (.jsonResp 200 echo_models_listing none, m)
  else if path = "/metrics" then
    (.jsonResp 200 (metricsBody m) none, m)
  else
    (.jsonResp 404 (errBody "not_found") none, m)

/-- ASCII lower-casing of one character. -/
def lowerChar (c : Char) : Char :=
  if 65 ≤ c.toNat ∧ c.toNat ≤ 90 then Char.ofNat (c.toNat + 32) else c

/-- ASCII lower-casing of a header name. -/
def lowerStr (s : String) : String := String.mk (s.data.map lowerChar)

/-- Header lookup per `email.message`: case-insensitive, first match wins. -/
def headerGet (hs : List (String × String)) (nm : String) : Option String :=
  (hs.find? (fun p => lowerStr p.fst = lowerStr nm)).map (fun p => p.snd)

/-- Python `a or b` on an optional string against a default. -/
def orElseStr (v : Option String) (d : String) : String :=
  match v with
  | some s => if s = "" then d else s
  | none => d

/-- Embeds `GatewayHandler._get_request_id`, with `fresh` standing for the
`str(uuid.uuid4())` value generated when both headers are missing/empty. -/
def get_request_id (hs : List (String × String)) (fresh : String) : String :=
  orElseStr (headerGet hs "X-Request-ID") (orElseStr (headerGet hs "Request-Id") fresh)

/-- Embeds `GatewayHandler.do_POST`. -/
def do_POST (path : String) (hs : List (String × String)) (fresh : String)
    (bodyParse : Option Json) (env : Env) (m : Metrics) : Outcome × Metrics :=
  if path = "/v1/chat/completions" then
    handle_chat_completions (get_request_id hs fresh) bodyParse env m
  else
    (.jsonResp 404 (errBody "not_found") none, m)

/-- HTTP methods the gateway implements. -/
inductive Method where
  | GET
  | POST
deriving Repr, DecidableEq

/-- One inbound request handled end-to-end. -/
def handle_request (method : Method) (path : String)
    (hs : List (String × String)) (fresh : String) (bodyParse : Option Json)
    (env : Env) (m : Metrics) : Outcome × Metrics :=
  match method with
  | .GET => do_GET path env m
  | .POST => do_POST path hs fresh bodyParse env m

/-! Sample values used to instantiate theorems with hypotheses. -/

/-- Zeroed metrics state. -/
def exM : Metrics := ⟨0, 0, 0, 0, 0⟩

/-- An echo-mode environment (no backend configured). -/
def exEnv : Env :=
  { backend_url := none, non_stream_result := .timeout, stream_result := .timeout,
    models_result := .timeout, latency := 0 }

/-- A well-formed chat-completion request body with one user message. -/
def validChatBody : Json :=
  .obj [("messages", .arr [.obj [("role", .str "user"), ("content", .str "hello world")]])]

/-! ## Claim theorems -/

/-- C10:  Handling a GET request to any path (`/healthz`, `/metrics`,
`/v1/models`, or an unknown 404 route), or a POST to any route other than
`/v1/chat/completions`, returns the metrics state unchanged: only the
chat-completions path mutates metrics. -/
theorem get_and_404_leave_metrics_unchanged (path : String)
    (hs : List (String × String)) (fresh : String) (bp : Option Json)
    (env : Env) (m : Metrics) :
    (handle_request .GET path hs fresh bp env m).snd = m ∧
    (path ≠ "/v1/chat/completions" →
      (handle_request .POST path hs fresh bp env m).snd = m) := by
  constructor
  · show (do_GET path env m).snd = m
    unfold do_GET
    repeat' split
    all_goals rfl
  · intro h
    show (do_POST path hs fresh bp env m).snd = m
    unfold do_POST
    rw [if_neg h]

/-- Witness for C10 at a concrete non-chat POST path. -/
theorem get_and_404_leave_metrics_unchanged_witness :
    (handle_request .POST "/metrics" [] "f" none exEnv exM).snd = exM :=
  (get_and_404_leave_metrics_unchanged "/metrics" [] "f" none exEnv exM).2 (by decide)

/-- A streaming proxy environment whose upstream opened with 200 and whose
iteration raises a read timeout after yielding one line. -/
def exEnvMidFail : Env :=
  { backend_url := some "http://b", non_stream_result := .timeout,
    stream_result := .respPartial 200 ["data: x"] .timeout,
    models_result := .timeout, latency := 0 }

/-- C2 counterexample: a read timeout raised by `iter_lines` after the 200
SSE headers and one line were already written is caught by
`_handle_backend`, which then writes a whole `_send_json(504)` into the
open 200 response: the client does not receive one 504 `gateway_timeout`
response as the claim states (the 504 bytes land inside the started stream
body), though the 504 is still recorded exactly once. -/
theorem mid_relay_timeout_corrupts_stream :
    (handle_backend "R" true exEnvMidFail exM).fst =
      .sseThenJson 200
        [("Content-Type", "text/event-stream"), ("Cache-Control", "no-cache"),
         ("X-Request-ID", "R")]
        "data: x\n" 504 (errBody "gateway_timeout") (some "R") ∧
    (handle_backend "R" true exEnvMidFail exM).fst ≠
      .jsonResp 504 (errBody "gateway_timeout") (some "R") ∧
    (handle_backend "R" true exEnvMidFail exM).snd =
      record_metrics exM 504 exEnvMidFail.latency 0 0 :=
  ⟨rfl, fun h => Outcome.noConfusion h, rfl⟩

/-- C2 amended: for a proxied chat-completion request, a timeout or other
connection-level failure raised by the outbound HTTP call before anything
was relayed to the client (always the case in non-streaming mode, where the
call buffers the whole upstream response) is translated to exactly one 504
`gateway_timeout` resp. 502 `backend_unavailable` JSON response, with no
second backend attempt; a failure raised mid-relay in streaming mode
(after the 200 SSE headers and `lines` were written) produces no separate
error response: the handler records the translated status once and writes
the corresponding JSON error into the already-started 200 response. -/
theorem backend_failure_translation (rid : String) (env : Env) (m : Metrics) :
    (env.stream_result = .timeout →
      handle_backend rid true env m =
        (.jsonResp 504 (errBody "gateway_timeout") (some rid),
         record_metrics m 504 env.latency 0 0)) ∧
    (env.non_stream_result = .timeout →
      handle_backend rid false env m =
        (.jsonResp 504 (errBody "gateway_timeout") (some rid),
         record_metrics m 504 env.latency 0 0)) ∧
    (env.stream_result = .connError →
      handle_backend rid true env m =
        (.jsonResp 502 (errBody "backend_unavailable") (some rid),
         record_metrics m 502 env.latency 0 0)) ∧
    (env.non_stream_result = .connError →
      handle_backend rid false env m =
        (.jsonResp 502 (errBody "backend_unavailable") (some rid),
         record_metrics m 502 env.latency 0 0)) ∧
    (∀ st lines, st < 500 →
      env.stream_result = .respPartial st lines .timeout →
      handle_backend rid true env m =
        (.sseThenJson 200
           [("Content-Type", "text/event-stream"), ("Cache-Control", "no-cache"),
            ("X-Request-ID", rid)]
           (String.join (lines.map (fun l => l ++ "\n")))
           504 (errBody "gateway_timeout") (some rid),
         record_metrics m 504 env.latency 0 0)) ∧
    (∀ st lines, st < 500 →
      env.stream_result = .respPartial st lines .connError →
      handle_backend rid true env m =
        (.sseThenJson 200
           [("Content-Type", "text/event-stream"), ("Cache-Control", "no-cache"),
            ("X-Request-ID", rid)]
           (String.join (lines.map (fun l => l ++ "\n")))
           502 (errBody "backend_unavailable") (some rid),
         record_metrics m 502 env.latency 0 0)) := by
  refine ⟨fun h => ?_, fun h => ?_, fun h => ?_, fun h => ?_,
    fun st lines h5 h => ?_, fun st lines h5 h => ?_⟩
  · simp [handle_backend, h]
  · simp [handle_backend, h]
  · simp [handle_backend, h]
  · simp [handle_backend, h]
  · simp [handle_backend, h, proxy_stream_midfail, Nat.not_le.mpr h5]
  · simp [handle_backend, h, proxy_stream_midfail, Nat.not_le.mpr h5]

/-- Witness for C2 (amended): streaming pre-relay timeout at a concrete
environment. -/
theorem backend_failure_translation_witness :
    handle_backend "R" true exEnv exM =
      (.jsonResp 504 (errBody "gateway_timeout") (some "R"),
       record_metrics exM 504 exEnv.latency 0 0) :=
  (backend_failure_translation "R" exEnv exM).1 rfl

/-- C5 counterexample:  The claim covers every valid-JSON body whose
`messages` field is missing, but a body that is valid JSON and not an object
(here the array `[1]`, which has no `messages` field) makes `body.get`
raise an uncaught `AttributeError` instead of producing the claimed 400
`invalid_messages` response. -/
theorem validation_nonobject_body_crashes :
    (handle_chat_completions "R" (some (.arr [.num 1])) exEnv exM).fst =
      .crash "AttributeError" := rfl

/-- C5 amended:  A body that fails to parse as JSON yields 400
`invalid_json`, and a body that parses to a JSON object whose `messages`
field is missing, not a list, or an empty list yields 400
`invalid_messages`; both outcomes are independent of the backend
configuration and of every outbound-call result (no dispatch happens), and
each records metrics once with status 400. -/
theorem request_validation (rid : String) (fs : List (String × Json))
    (env env' : Env) (m : Metrics) (hlat : env'.latency = env.latency)
    (hmsg : match lookupField fs "messages" with
            | some (.arr msgs) => msgs.isEmpty = true
            | some (.obj _) => True
            | some (.str _) => True
            | some (.num _) => True
            | some (.bool _) => True
            | some .null => True
            | none => True) :
    handle_chat_completions rid none env m =
      (.jsonResp 400 (errBody "invalid_json") none,
       record_metrics m 400 env.latency 0 0) ∧
    handle_chat_completions rid none env' m =
      handle_chat_completions rid none env m ∧
    handle_chat_completions rid (some (.obj fs)) env m =
      (.jsonResp 400 (errBody "invalid_messages") none,
       record_metrics m 400 env.latency 0 0) ∧
    handle_chat_completions rid (some (.obj fs)) env' m =
      handle_chat_completions rid (some (.obj fs)) env m := by
  have hobj : handle_chat_completions rid (some (.obj fs)) env m =
      (.jsonResp 400 (errBody "invalid_messages") none,
       record_metrics m 400 env.latency 0 0) := by
    unfold handle_chat_completions
    cases h : lookupField fs "messages" with
    | none => simp [h]
    | some v =>
      cases v <;> simp_all [h]
  have hobj' : handle_chat_completions rid (some (.obj fs)) env' m =
      (.jsonResp 400 (errBody "invalid_messages") none,
       record_metrics m 400 env'.latency 0 0) := by
    unfold handle_chat_completions
    cases h : lookupField fs "messages" with
    | none => simp [h]
    | some v =>
      cases v <;> simp_all [h]
  have h1 : handle_chat_completions rid none env m =
      (.jsonResp 400 (errBody "invalid_json") none,
       record_metrics m 400 env.latency 0 0) := rfl
  have h1' : handle_chat_completions rid none env' m =
      (.jsonResp 400 (errBody "invalid_json") none,
       record_metrics m 400 env'.latency 0 0) := rfl
  refine ⟨h1, ?_, hobj, ?_⟩
  · rw [h1, h1', hlat]
  · rw [hobj, hobj', hlat]

/-- Witness for C5 (amended) at `{"messages": []}` with two different
environments. -/
theorem request_validation_witness :
    handle_chat_completions "R" none exEnv exM =
      (.jsonResp 400 (errBody "invalid_json") none,
       record_metrics exM 400 exEnv.latency 0 0) :=
  (request_validation "R" [("messages", .arr [])] exEnv
    { exEnv with non_stream_result := .connError } exM rfl (by exact rfl)).1

/-- C7:  The spec's propagation policy says no failure escapes the
request handler, but a parsed body whose `messages` entries are not objects
(here `{"messages": ["hi"]}`) makes the prompt-extraction loop raise an
uncaught `AttributeError` at `msg.get("role")`: the handler crashes, no
response is rendered, and no metrics are recorded. -/
theorem nonobject_message_entry_escapes_handler :
    handle_chat_completions "R" (some (.obj [("messages", .arr [.str "hi"])]))
        exEnv exM =
      (.crash "AttributeError", exM) ∧
    Outcome.render (handle_chat_completions "R"
        (some (.obj [("messages", .arr [.str "hi"])])) exEnv exM).fst = none :=
  ⟨rfl, rfl⟩

/-- Lemma: `_record_metrics` on addable token values never raises and equals the
plain recording function. -/
lemma record_metrics_py_ok (m : Metrics) (st l : Nat) (ptJ ctJ : Json)
    (pt ct : Int) (hpt : tokenInt ptJ = some pt) (hct : tokenInt ctJ = some ct) :
    record_metrics_py m st l ptJ ctJ = (record_metrics m st l pt ct, none) := by
  unfold record_metrics_py record_metrics
  rw [hpt, hct]
  by_cases h : 400 ≤ st <;> simp [h]

/-- A backend-proxy environment whose upstream body is valid JSON but not an
object. -/
def exEnvArrayBody : Env :=
  { backend_url := some "http://b", non_stream_result := .resp 200 (some (.arr [.num 1])),
    stream_result := .timeout, models_result := .timeout, latency := 0 }

/-- C1 counterexample:  A non-streaming proxied request whose upstream
response is status 200 with the valid JSON body `[1]` falls into the
claim's "otherwise" branch, but instead of overwriting `id` and relaying,
the gateway raises an uncaught `TypeError` at `data["id"] = request_id` and
sends nothing. -/
theorem proxy_nonobject_upstream_body_crashes :
    handle_chat_completions "R" (some validChatBody) exEnvArrayBody exM =
      (.crash "TypeError", exM) := rfl

/-- C1 amended:  For a non-streaming proxied request: upstream status
≥ 500 yields 502 `backend_error`; a body that is not valid JSON yields 502
`backend_invalid_response`; otherwise, provided the decoded body is a JSON
object whose `usage` value (defaulting to an empty object) is an object
with integer-valued `prompt_tokens`/`completion_tokens` (each defaulting to
0 when absent), the gateway overwrites the top-level `id` with its request
id, records those token counts, and relays the upstream status with the
modified body. -/
theorem proxy_non_stream_relay (rid : String) (env : Env) (m : Metrics)
    (st : Nat) (bodyOpt : Option Json)
    (hres : env.non_stream_result = .resp st bodyOpt) :
    (500 ≤ st →
      handle_backend rid false env m =
        (.jsonResp 502 (errBody "backend_error") (some rid),
         record_metrics m 502 env.latency 0 0)) ∧
    (st < 500 → bodyOpt = none →
      handle_backend rid false env m =
        (.jsonResp 502 (errBody "backend_invalid_response") (some rid),
         record_metrics m 502 env.latency 0 0)) ∧
    (∀ fs us pt ct, st < 500 → bodyOpt = some (.obj fs) →
      getD (setField fs "id" (.str rid)) "usage" (.obj []) = .obj us →
      tokenInt (getD us "prompt_tokens" (.num 0)) = some pt →
      tokenInt (getD us "completion_tokens" (.num 0)) = some ct →
      handle_backend rid false env m =
        (.jsonResp st (.obj (setField fs "id" (.str rid))) (some rid),
         record_metrics m st env.latency pt ct)) := by
  have hb : handle_backend rid false env m = proxy_non_stream rid st bodyOpt env.latency m := by
    simp [handle_backend, hres]
  refine ⟨fun h5 => ?_, fun h5 hn => ?_, fun fs us pt ct h5 hsome hus hpt hct => ?_⟩
  · rw [hb]
    simp [proxy_non_stream, h5]
  · rw [hb, hn]
    simp [proxy_non_stream, Nat.not_le.mpr h5]
  · rw [hb, hsome]
    unfold proxy_non_stream
    rw [if_neg (Nat.not_le.mpr h5)]
    dsimp only
    rw [hus]
    dsimp only
    rw [record_metrics_py_ok m st env.latency _ _ pt ct hpt hct]

/-- A backend-proxy environment with a well-formed upstream completion. -/
def exEnvGoodBackend : Env :=
  { backend_url := some "http://b",
    non_stream_result := .resp 200 (some (.obj
      [("id", .str "backend-id"),
       ("usage", .obj [("prompt_tokens", .num 5), ("completion_tokens", .num 3)])])),
    stream_result := .timeout, models_result := .timeout, latency := 0 }

/-- Witness for C1 (amended): the upstream id is overwritten, tokens 5/3
are recorded, and status 200 is relayed. -/
theorem proxy_non_stream_relay_witness :
    handle_backend "R" false exEnvGoodBackend exM =
      (.jsonResp 200 (.obj
        [("id", .str "R"),
         ("usage", .obj [("prompt_tokens", .num 5), ("completion_tokens", .num 3)])])
        (some "R"),
       record_metrics exM 200 exEnvGoodBackend.latency 5 3) :=
  (proxy_non_stream_relay "R" exEnvGoodBackend exM 200 _ rfl).2.2
    [("id", .str "backend-id"),
     ("usage", .obj [("prompt_tokens", .num 5), ("completion_tokens", .num 3)])]
    [("prompt_tokens", .num 5), ("completion_tokens", .num 3)] 5 3
    (by decide) rfl rfl rfl rfl

/-- Field access on a JSON object (`none` on other values). -/
def jField (j : Json) (k : String) : Option Json :=
  match j with
  | .obj fs => lookupField fs k
  | _ => none

/-- Index access on a JSON array (`none` on other values). -/
def jIndex (j : Json) (i : Nat) : Option Json :=
  match j with
  | .arr xs => xs.get? i
  | _ => none

/-- A message is well formed per the spec's ChatRequest data model: an
object with a string `role` and a string `content`. -/
def validMsg : Json → Bool
  | .obj fs =>
    (match lookupField fs "role" with
     | some (.str _) => true
     | _ => false) &&
    (match lookupField fs "content" with
     | some (.str _) => true
     | _ => false)
  | _ => false

/-- The claim's predicate: the message's `role` equals `"user"`. -/
def isUserMsg : Json → Bool
  | .obj fs =>
    match lookupField fs "role" with
    | some (.str r) => r = "user"
    | _ => false
  | _ => false

/-- The claim's projection: the message's string `content`, else `""`. -/
def contentStr : Json → String
  | .obj fs =>
    match lookupField fs "content" with
    | some (.str s) => s
    | _ => ""
  | _ => ""

/-- The claim's prompt `P`: the content of the last message whose role
equals `"user"`, or the empty string when no such message exists. -/
def lastUserContent (msgs : List Json) : String :=
  match msgs.reverse.find? isUserMsg with
  | some msg => contentStr msg
  | none => ""

/-- On a list of well-formed messages the extraction loop never raises and
returns exactly the first user content of the (already reversed) list. -/
lemma extractPromptRev_valid (l : List Json) (h : l.all validMsg = true) :
    extractPromptRev l = .ok (.str (match l.find? isUserMsg with
                                    | some msg => contentStr msg
                                    | none => "")) := by
  induction l with
  | nil => rfl
  | cons msg rest ih =>
    rw [List.all_cons, Bool.and_eq_true] at h
    obtain ⟨hm, hrest⟩ := h
    cases msg with
    | obj fs =>
      unfold validMsg at hm
      rw [Bool.and_eq_true] at hm
      obtain ⟨hrole, hcontent⟩ := hm
      unfold extractPromptRev
      dsimp only
      cases hr : lookupField fs "role" with
      | none => rw [hr] at hrole; exact absurd hrole (by simp)
      | some v =>
        cases v with
        | str r =>
          by_cases hu : r = "user"
          · dsimp only
            rw [if_pos hu]
            have hfind : List.find? isUserMsg (Json.obj fs :: rest) = some (.obj fs) := by
              rw [List.find?_cons_of_pos]
              simp [isUserMsg, hr, hu]
            rw [hfind]
            cases hc : lookupField fs "content" with
            | none => rw [hc] at hcontent; exact absurd hcontent (by simp)
            | some w =>
              cases w with
              | str c => simp [getD, hc, contentStr]
              | null => rw [hc] at hcontent; exact absurd hcontent (by simp)
              | bool b => rw [hc] at hcontent; exact absurd hcontent (by simp)
              | num n => rw [hc] at hcontent; exact absurd hcontent (by simp)
              | arr xs => rw [hc] at hcontent; exact absurd hcontent (by simp)
              | obj fs2 => rw [hc] at hcontent; exact absurd hcontent (by simp)
          · dsimp only
            rw [if_neg hu]
            have hfind : List.find? isUserMsg (Json.obj fs :: rest) =
                List.find? isUserMsg rest := by
              rw [List.find?_cons_of_neg]
              simp [isUserMsg, hr, hu]
            rw [hfind]
            exact ih hrest
        | null => rw [hr] at hrole; exact absurd hrole (by simp)
        | bool b => rw [hr] at hrole; exact absurd hrole (by simp)
        | num n => rw [hr] at hrole; exact absurd hrole (by simp)
        | arr xs => rw [hr] at hrole; exact absurd hrole (by simp)
        | obj fs2 => rw [hr] at hrole; exact absurd hrole (by simp)
    | null => exact absurd hm (by simp [validMsg])
    | bool b => exact absurd hm (by simp [validMsg])
    | num n => exact absurd hm (by simp [validMsg])
    | str s => exact absurd hm (by simp [validMsg])
    | arr xs => exact absurd hm (by simp [validMsg])

/-- On well-formed messages, `extractPrompt` returns the last user content. -/
lemma extractPrompt_valid (msgs : List Json) (h : msgs.all validMsg = true) :
    extractPrompt msgs = .ok (.str (lastUserContent msgs)) := by
  unfold extractPrompt lastUserContent
  rw [extractPromptRev_valid msgs.reverse (by simpa using h)]

/-- A valid echo-mode request reaches `_handle_echo` with the extracted
prompt. -/
lemma handle_chat_completions_echo (rid : String) (fs : List (String × Json))
    (msgs : List Json) (env : Env) (m : Metrics)
    (hb : optTruthy env.backend_url = false)
    (hm : lookupField fs "messages" = some (.arr msgs))
    (hne : msgs.isEmpty = false)
    (hv : msgs.all validMsg = true) :
    handle_chat_completions rid (some (.obj fs)) env m =
      handle_echo rid (.str (lastUserContent msgs))
        (truthy (getD fs "stream" (.bool false))) env.latency m := by
  unfold handle_chat_completions
  dsimp only
  rw [hm]
  dsimp only
  rw [hne, extractPrompt_valid msgs hv, hb]
  simp

/-- C3:  For every valid non-streaming echo-mode request (non-empty
`messages`, each an object with string `role`/`content`, backend absent,
`stream` falsy), the response body has
`choices[0].message.content = "Echo: " + P` for `P` the content of the last
message with role `"user"` (empty if none), `usage.prompt_tokens` the
whitespace-token count of `P`, `usage.completion_tokens` the
whitespace-token count of the content, and
`usage.total_tokens = prompt_tokens + completion_tokens`. -/
theorem echo_response_spec (rid : String) (fs : List (String × Json))
    (msgs : List Json) (env : Env) (m : Metrics)
    (hb : optTruthy env.backend_url = false)
    (hm : lookupField fs "messages" = some (.arr msgs))
    (hne : msgs.isEmpty = false)
    (hv : msgs.all validMsg = true)
    (hstream : truthy (getD fs "stream" (.bool false)) = false) :
    ∃ data,
      (handle_chat_completions rid (some (.obj fs)) env m).fst =
        .jsonResp 200 data (some rid) ∧
      (((jField data "choices").bind (fun c => jIndex c 0)).bind
          (fun c => jField c "message")).bind (fun me => jField me "content") =
        some (.str ("Echo: " ++ lastUserContent msgs)) ∧
      (jField data "usage").bind (fun u => jField u "prompt_tokens") =
        some (.num (countTokens (lastUserContent msgs))) ∧
      (jField data "usage").bind (fun u => jField u "completion_tokens") =
        some (.num (countTokens ("Echo: " ++ lastUserContent msgs))) ∧
      (jField data "usage").bind (fun u => jField u "total_tokens") =
        some (.num ((countTokens (lastUserContent msgs) : Int) +
                    (countTokens ("Echo: " ++ lastUserContent msgs) : Int))) := by
  rw [handle_chat_completions_echo rid fs msgs env m hb hm hne hv]
  refine ⟨build_response rid ("Echo: " ++ lastUserContent msgs) "echo"
      (countTokens (lastUserContent msgs))
      (countTokens ("Echo: " ++ lastUserContent msgs)), ?_, ?_, ?_, ?_, ?_⟩
  · simp [handle_echo, hstream]
  · simp [build_response, jField, jIndex, lookupField]
  · simp [build_response, jField, lookupField]
  · simp [build_response, jField, lookupField]
  · simp [build_response, jField, lookupField]

/-- Witness for C3: one user message `"hello world"` yields content
`"Echo: hello world"`, 2 prompt tokens, 3 completion tokens, 5 total. -/
theorem echo_response_spec_witness :
    ∃ data,
      (handle_chat_completions "R" (some validChatBody) exEnv exM).fst =
        .jsonResp 200 data (some "R") ∧
      (((jField data "choices").bind (fun c => jIndex c 0)).bind
          (fun c => jField c "message")).bind (fun me => jField me "content") =
        some (.str "Echo: hello world") ∧
      (jField data "usage").bind (fun u => jField u "prompt_tokens") =
        some (.num 2) ∧
      (jField data "usage").bind (fun u => jField u "completion_tokens") =
        some (.num 3) ∧
      (jField data "usage").bind (fun u => jField u "total_tokens") =
        some (.num 5) :=
  echo_response_spec "R"
    [("messages", .arr [.obj [("role", .str "user"), ("content", .str "hello world")]])]
    [.obj [("role", .str "user"), ("content", .str "hello world")]]
    exEnv exM rfl rfl rfl rfl rfl

/-- C6:  For every valid echo-mode request with truthy `stream`, the
response is an SSE response with `Content-Type: text/event-stream` and
`Cache-Control: no-cache` whose body is exactly one
`data: <json>\n\n` frame followed by exactly one `data: [DONE]\n\n` frame,
the frame's JSON being a `chat.completion.chunk` carrying the gateway
request id and the echo content. -/
theorem sse_echo_spec (rid : String) (fs : List (String × Json))
    (msgs : List Json) (env : Env) (m : Metrics)
    (hb : optTruthy env.backend_url = false)
    (hm : lookupField fs "messages" = some (.arr msgs))
    (hne : msgs.isEmpty = false)
    (hv : msgs.all validMsg = true)
    (hstream : truthy (getD fs "stream" (.bool false)) = true) :
    (handle_chat_completions rid (some (.obj fs)) env m).fst =
      .sseResp 200
        [("Content-Type", "text/event-stream"), ("Cache-Control", "no-cache"),
         ("X-Request-ID", rid)]
        ("data: " ++ dumps (sseEchoChunk rid ("Echo: " ++ lastUserContent msgs)) ++
         "\n\n" ++ "data: [DONE]\n\n") ∧
    jField (sseEchoChunk rid ("Echo: " ++ lastUserContent msgs)) "object" =
      some (.str "chat.completion.chunk") ∧
    jField (sseEchoChunk rid ("Echo: " ++ lastUserContent msgs)) "id" =
      some (.str rid) ∧
    (((jField (sseEchoChunk rid ("Echo: " ++ lastUserContent msgs)) "choices").bind
        (fun c => jIndex c 0)).bind (fun c => jField c "delta")).bind
        (fun d => jField d "content") =
      some (.str ("Echo: " ++ lastUserContent msgs)) := by
  rw [handle_chat_completions_echo rid fs msgs env m hb hm hne hv]
  refine ⟨?_, ?_, ?_, ?_⟩
  · simp [handle_echo, hstream, send_sse_echo]
  · simp [sseEchoChunk, jField, lookupField]
  · simp [sseEchoChunk, jField, lookupField]
  · simp [sseEchoChunk, jField, jIndex, lookupField]

/-- A streaming echo request body with one user message. -/
def validStreamBody : Json :=
  .obj [("messages", .arr [.obj [("role", .str "user"), ("content", .str "hi")]]),
        ("stream", .bool true)]

/-- Witness for C6 at a concrete streaming echo request. -/
theorem sse_echo_spec_witness :
    (handle_chat_completions "R" (some validStreamBody) exEnv exM).fst =
      .sseResp 200
        [("Content-Type", "text/event-stream"), ("Cache-Control", "no-cache"),
         ("X-Request-ID", "R")]
        ("data: " ++ dumps (sseEchoChunk "R" "Echo: hi") ++ "\n\n" ++
         "data: [DONE]\n\n") ∧
    jField (sseEchoChunk "R" "Echo: hi") "object" =
      some (.str "chat.completion.chunk") ∧
    jField (sseEchoChunk "R" "Echo: hi") "id" = some (.str "R") ∧
    (((jField (sseEchoChunk "R" "Echo: hi") "choices").bind
        (fun c => jIndex c 0)).bind (fun c => jField c "delta")).bind
        (fun d => jField d "content") = some (.str "Echo: hi") :=
  sse_echo_spec "R"
    [("messages", .arr [.obj [("role", .str "user"), ("content", .str "hi")]]),
     ("stream", .bool true)]
    [.obj [("role", .str "user"), ("content", .str "hi")]]
    exEnv exM rfl rfl rfl rfl rfl

/-- A backend-proxy environment whose `/v1/models` upstream body is not
valid JSON. -/
def exEnvModelsBad : Env :=
  { backend_url := some "http://b", non_stream_result := .timeout,
    stream_result := .timeout, models_result := .resp 200 none, latency := 0 }

/-- C9 counterexample:  With a backend configured, an upstream
`/v1/models` response of status 200 whose body is not JSON is not relayed
verbatim as the claim states: `resp.json()` raises an uncaught
`JSONDecodeError` and the handler crashes without responding. -/
theorem models_nonjson_upstream_crashes :
    (do_GET "/v1/models" exEnvModelsBad exM).fst = .crash "JSONDecodeError" := rfl

/-- C9 amended:  With a backend configured, GET `/v1/models` issues one
outbound GET to the backend base (trailing slashes stripped) plus
`/v1/models` with a 10-unit timeout; an upstream response whose body parses
as JSON is relayed with the upstream status (body re-serialized from the
decoded JSON), a timeout maps to 504 `gateway_timeout`, a connection
failure to 502 `backend_unavailable` (a non-JSON upstream body raises an
uncaught error instead); with no backend configured, a static single-entry
listing describing the echo model is returned with status 200. -/
theorem models_passthrough (base : String) (env : Env) (m : Metrics) :
    (env.backend_url = some base → base ≠ "" →
      (proxy_models base env.models_result).fst =
        ⟨"GET", rstripSlash base ++ "/v1/models", 10⟩ ∧
      (∀ st j, env.models_result = .resp st (some j) →
        (do_GET "/v1/models" env m).fst = .jsonResp st j none) ∧
      (env.models_result = .timeout →
        (do_GET "/v1/models" env m).fst =
          .jsonResp 504 (errBody "gateway_timeout") none) ∧
      (env.models_result = .connError →
        (do_GET "/v1/models" env m).fst =
          .jsonResp 502 (errBody "backend_unavailable") none)) ∧
    (optTruthy env.backend_url = false →
      (do_GET "/v1/models" env m).fst = .jsonResp 200 echo_models_listing none ∧
      jField echo_models_listing "object" = some (.str "list") ∧
      ((jField echo_models_listing "data").bind (fun d => jIndex d 0)).bind
        (fun e => jField e "id") = some (.str "echo")) := by
  constructor
  · intro hb hbase
    have ht : optTruthy env.backend_url = true := by
      rw [hb]
      simpa [optTruthy] using hbase
    have hget : env.backend_url.getD "" = base := by rw [hb]; rfl
    refine ⟨rfl, ?_, ?_, ?_⟩
    · intro st j hres
      simp [do_GET, ht, hget, proxy_models, hres]
    · intro hres
      simp [do_GET, ht, hget, proxy_models, hres]
    · intro hres
      simp [do_GET, ht, hget, proxy_models, hres]
  · intro hb
    exact ⟨by simp [do_GET, hb], rfl, rfl⟩

/-- A backend-proxy environment with a JSON `/v1/models` upstream reply. -/
def exEnvModelsOk : Env :=
  { backend_url := some "http://b/", non_stream_result := .timeout,
    stream_result := .timeout,
    models_result := .resp 200 (some (.obj [("object", .str "list"), ("data", .arr [])])),
    latency := 0 }

/-- Witness for C9 (amended): the outbound call strips the trailing slash
and carries the 10-unit timeout, and the upstream JSON body is relayed. -/
theorem models_passthrough_witness :
    (proxy_models "http://b/" exEnvModelsOk.models_result).fst =
      ⟨"GET", "http://b/v1/models", 10⟩ ∧
    (do_GET "/v1/models" exEnvModelsOk exM).fst =
      .jsonResp 200 (.obj [("object", .str "list"), ("data", .arr [])]) none :=
  ⟨((models_passthrough "http://b/" exEnvModelsOk exM).1 rfl (by decide)).1,
   ((models_passthrough "http://b/" exEnvModelsOk exM).1 rfl (by decide)).2.1 200
     (.obj [("object", .str "list"), ("data", .arr [])]) rfl⟩

/-- Setting a key makes it the value `lookupField` finds. -/
lemma lookupField_setField (fs : List (String × Json)) (k : String) (v : Json) :
    lookupField (setField fs k v) k = some v := by
  induction fs with
  | nil => simp [setField, lookupField]
  | cons p rest ih =>
    obtain ⟨k', v'⟩ := p
    by_cases h : k' = k
    · simp [setField, h, lookupField]
    · simp [setField, h, lookupField, ih]

/-- Request-id conventions of a single outcome: a buffered JSON response
either was sent with the resolved id attached or is a 400 validation
response sent with none, and its body's top-level `id`, when present,
equals the resolved id; an SSE response carries the `X-Request-ID` header. -/
def ridOk (rid : String) : Outcome → Prop
  | .jsonResp st d ro =>
      (ro = some rid ∨ (st = 400 ∧ ro = none)) ∧
      (jField d "id" = none ∨ jField d "id" = some (.str rid))
  | .sseResp _ hs _ => ("X-Request-ID", rid) ∈ hs
  | .sseThenJson _ hs _ _ d ro =>
      ("X-Request-ID", rid) ∈ hs ∧ ro = some rid ∧
      (jField d "id" = none ∨ jField d "id" = some (.str rid))
  | .crash _ => True

/-- Echo outcomes satisfy the request-id conventions. -/
lemma ridOk_handle_echo (rid : String) (p : Json) (stream : Bool) (l : Nat)
    (m : Metrics) : ridOk rid (handle_echo rid p stream l m).fst := by
  cases p <;> simp [handle_echo, ridOk]
  cases stream
  · simp [ridOk, build_response, jField, lookupField]
  · simp [send_sse_echo, ridOk]

/-- Buffered proxy outcomes satisfy the request-id conventions. -/
lemma ridOk_proxy_non_stream (rid : String) (st : Nat) (b : Option Json)
    (l : Nat) (m : Metrics) : ridOk rid (proxy_non_stream rid st b l m).fst := by
  unfold proxy_non_stream
  by_cases h5 : 500 ≤ st
  · simp [h5, ridOk, errBody, jField, lookupField]
  · rw [if_neg h5]
    cases b with
    | none => simp [ridOk, errBody, jField, lookupField]
    | some data =>
      cases data with
      | obj fs =>
        dsimp only
        cases hu : getD (setField fs "id" (.str rid)) "usage" (.obj []) with
        | obj us =>
          dsimp only
          rcases hrec : record_metrics_py m st l (getD us "prompt_tokens" (.num 0))
              (getD us "completion_tokens" (.num 0)) with ⟨m2, e⟩
          cases e with
          | none => simp [ridOk, jField, lookupField_setField]
          | some err => simp [ridOk]
        | null => simp [ridOk]
        | bool b2 => simp [ridOk]
        | num n => simp [ridOk]
        | str s => simp [ridOk]
        | arr xs => simp [ridOk]
      | null => simp [ridOk]
      | bool b2 => simp [ridOk]
      | num n => simp [ridOk]
      | str s => simp [ridOk]
      | arr xs => simp [ridOk]

/-- Streaming proxy outcomes satisfy the request-id conventions. -/
lemma ridOk_proxy_stream (rid : String) (st : Nat) (lines : List String)
    (l : Nat) (m : Metrics) : ridOk rid (proxy_stream rid st lines l m).fst := by
  unfold proxy_stream
  split
  · simp [ridOk, errBody, jField, lookupField]
  · simp [ridOk]

/-- Mid-relay streaming failures satisfy the request-id conventions: the
SSE headers carry the id and the appended error was sent with it. -/
lemma ridOk_proxy_stream_midfail (rid : String) (st : Nat)
    (lines : List String) (f : StreamFailure) (l : Nat) (m : Metrics) :
    ridOk rid (proxy_stream_midfail rid st lines f l m).fst := by
  unfold proxy_stream_midfail
  split
  · simp [ridOk, errBody, jField, lookupField]
  · cases f <;> simp [ridOk, errBody, jField, lookupField]

/-- Backend-proxy outcomes satisfy the request-id conventions. -/
lemma ridOk_handle_backend (rid : String) (stream : Bool) (env : Env)
    (m : Metrics) : ridOk rid (handle_backend rid stream env m).fst := by
  unfold handle_backend
  split
  · cases env.stream_result with
    | timeout => simp [ridOk, errBody, jField, lookupField]
    | connError => simp [ridOk, errBody, jField, lookupField]
    | resp st lines => exact ridOk_proxy_stream rid st lines env.latency m
    | respPartial st lines f => exact ridOk_proxy_stream_midfail rid st lines f env.latency m
  · cases env.non_stream_result with
    | timeout => simp [ridOk, errBody, jField, lookupField]
    | connError => simp [ridOk, errBody, jField, lookupField]
    | resp st b => exact ridOk_proxy_non_stream rid st b env.latency m

/-- Every chat-completions outcome satisfies the request-id conventions. -/
lemma ridOk_handle_chat_completions (rid : String) (bp : Option Json)
    (env : Env) (m : Metrics) :
    ridOk rid (handle_chat_completions rid bp env m).fst := by
  unfold handle_chat_completions
  repeat' split
  all_goals
    first
    | exact ridOk_handle_backend rid _ env m
    | exact ridOk_handle_echo rid _ _ env.latency m
    | simp_all [ridOk, errBody, jField, lookupField]

/-- C4 counterexample:  A POST to `/v1/chat/completions` carrying
`X-Request-ID: abc` whose body is not valid JSON gets a 400 response, and
that response — contrary to the claim that every response carries
`X-Request-ID` — is sent without the request-id argument, so its rendered
headers contain no `X-Request-ID` at all. -/
theorem request_id_missing_on_400 :
    (handle_request .POST "/v1/chat/completions" [("X-Request-ID", "abc")] "F"
        none exEnv exM).fst = .jsonResp 400 (errBody "invalid_json") none ∧
    Option.map (fun r => headerGet r.headers "X-Request-ID")
      (Outcome.render (handle_request .POST "/v1/chat/completions"
        [("X-Request-ID", "abc")] "F" none exEnv exM).fst) = some none :=
  ⟨rfl, rfl⟩

/-- C4 amended:  The resolved request id equals the `X-Request-ID`
header when supplied non-empty, else the `Request-Id` header when supplied
non-empty, else the freshly generated UUID; chat-completion responses
follow the id conventions (`ridOk`): success and backend-error responses
are sent with the resolved id attached and an SSE response carries the
`X-Request-ID` header, while 400 validation responses are sent without an
id, and a JSON body's top-level `id`, when present, equals the resolved id;
GET responses and 404 responses are always sent without an id attached. -/
theorem request_id_conventions :
    (∀ hs fresh v, headerGet hs "X-Request-ID" = some v → v ≠ "" →
      get_request_id hs fresh = v) ∧
    (∀ hs fresh v,
      (headerGet hs "X-Request-ID" = none ∨ headerGet hs "X-Request-ID" = some "") →
      headerGet hs "Request-Id" = some v → v ≠ "" →
      get_request_id hs fresh = v) ∧
    (∀ hs fresh,
      (headerGet hs "X-Request-ID" = none ∨ headerGet hs "X-Request-ID" = some "") →
      (headerGet hs "Request-Id" = none ∨ headerGet hs "Request-Id" = some "") →
      get_request_id hs fresh = fresh) ∧
    (∀ rid bp env m, ridOk rid (handle_chat_completions rid bp env m).fst) ∧
    (∀ path env m st d ro,
      (do_GET path env m).fst = .jsonResp st d ro → ro = none) ∧
    (∀ path hs fresh bp env m, path ≠ "/v1/chat/completions" →
      (do_POST path hs fresh bp env m).fst =
        .jsonResp 404 (errBody "not_found") none) := by
  refine ⟨?_, ?_, ?_, ?_, ?_, ?_⟩
  · intro hs fresh v h hv
    simp [get_request_id, orElseStr, h, hv]
  · intro hs fresh v h1 h2 hv
    rcases h1 with h1 | h1 <;> simp [get_request_id, orElseStr, h1, h2, hv]
  · intro hs fresh h1 h2
    rcases h1 with h1 | h1 <;> rcases h2 with h2 | h2 <;>
      simp [get_request_id, orElseStr, h1, h2]
  · intro rid bp env m
    exact ridOk_handle_chat_completions rid bp env m
  · intro path env m st d ro h
    unfold do_GET proxy_models at h
    repeat' split at h
    all_goals simp_all
  · intro path hs fresh bp env m h
    unfold do_POST
    rw [if_neg h]

/-- Witness for C4 (amended): a lower-cased supplied header resolves the id,
and the concrete echo response satisfies the id conventions. -/
theorem request_id_conventions_witness :
    get_request_id [("x-request-id", "abc")] "F" = "abc" ∧
    ridOk "abc"
      (handle_chat_completions "abc" (some validChatBody) exEnv exM).fst :=
  ⟨request_id_conventions.1 [("x-request-id", "abc")] "F" "abc" rfl (by decide),
   request_id_conventions.2.2.2.1 "abc" (some validChatBody) exEnv exM⟩

/-- The status of the last `send_response` the handler issued, if any: for
a corrupted stream this is the status of the error response written into
the open 200 body — the status `_send_json` sent and `_record_metrics`
recorded, not the status line that opened the wire response. -/
def Outcome.status : Outcome → Option Nat
  | .jsonResp st _ _ => some st
  | .sseResp st _ _ => some st
  | .sseThenJson _ _ _ errSt _ _ => some errSt
  | .crash _ => none

/-- Whether the outcome is an uncaught exception. -/
def Outcome.isCrash : Outcome → Bool
  | .crash _ => true
  | _ => false

/-- Whether the outcome's last-sent status was an error (≥ 400). -/
def Outcome.isError : Outcome → Bool
  | .jsonResp st _ _ => decide (400 ≤ st)
  | .sseResp st _ _ => decide (400 ≤ st)
  | .sseThenJson _ _ _ errSt _ _ => decide (400 ≤ errSt)
  | .crash _ => false

/-- One complete POST `/v1/chat/completions` request: resolved id, body
parse result, and per-request environment. -/
structure Request where
  rid : String
  bodyParse : Option Json
  env : Env

/-- Handle one chat-completions request against a metrics state. -/
def step (r : Request) (m : Metrics) : Outcome × Metrics :=
  handle_chat_completions r.rid r.bodyParse r.env m

/-- Handle a sequence of chat-completions requests, returning the final
metrics state and the outcome of each request. -/
def runRequests : List Request → Metrics → Metrics × List Outcome
  | [], m => (m, [])
  | r :: rest, m =>
    ((runRequests rest (step r m).snd).fst,
     (step r m).fst :: (runRequests rest (step r m).snd).snd)

/-- The single-recording property of one handled request: either the
handler crashed, or the metrics were updated by exactly one
`_record_metrics` call whose status is the status actually sent. -/
def recordsOnce (latency : Nat) (m : Metrics) (out : Outcome × Metrics) : Prop :=
  out.fst.isCrash = true ∨
  ∃ st pt ct, out.fst.status = some st ∧
    out.snd = record_metrics m st latency pt ct

/-- When `_record_metrics` completes without raising, the resulting metrics
are one plain recording. -/
lemma record_metrics_py_none (m : Metrics) (st l : Nat) (ptJ ctJ : Json)
    (m2 : Metrics) (h : record_metrics_py m st l ptJ ctJ = (m2, none)) :
    ∃ pt ct, m2 = record_metrics m st l pt ct := by
  cases hp : tokenInt ptJ with
  | none => simp [record_metrics_py, hp] at h
  | some pt =>
    cases hc : tokenInt ctJ with
    | none => simp [record_metrics_py, hp, hc] at h
    | some ct =>
      rw [record_metrics_py_ok m st l ptJ ctJ pt ct hp hc] at h
      simp at h
      exact ⟨pt, ct, h.symm⟩

/-- Echo requests record exactly once with the sent status. -/
lemma recordsOnce_handle_echo (rid : String) (p : Json) (stream : Bool)
    (l : Nat) (m : Metrics) :
    recordsOnce l m (handle_echo rid p stream l m) := by
  cases p with
  | str s =>
    cases stream
    · exact Or.inr ⟨200, countTokens s, countTokens ("Echo: " ++ s), rfl, rfl⟩
    · exact Or.inr ⟨200, countTokens s, countTokens ("Echo: " ++ s), rfl, rfl⟩
  | null => exact Or.inl rfl
  | bool b => exact Or.inl rfl
  | num n => exact Or.inl rfl
  | arr xs => exact Or.inl rfl
  | obj fs => exact Or.inl rfl

/-- Buffered proxying records exactly once with the sent status. -/
lemma recordsOnce_proxy_non_stream (rid : String) (st : Nat) (b : Option Json)
    (l : Nat) (m : Metrics) :
    recordsOnce l m (proxy_non_stream rid st b l m) := by
  unfold proxy_non_stream
  by_cases h5 : 500 ≤ st
  · exact Or.inr ⟨502, 0, 0, by simp [h5, Outcome.status], by simp [h5]⟩
  · rw [if_neg h5]
    cases b with
    | none => exact Or.inr ⟨502, 0, 0, rfl, rfl⟩
    | some data =>
      cases data with
      | obj fs =>
        dsimp only
        cases hu : getD (setField fs "id" (.str rid)) "usage" (.obj []) with
        | obj us =>
          dsimp only
          rcases hrec : record_metrics_py m st l (getD us "prompt_tokens" (.num 0))
              (getD us "completion_tokens" (.num 0)) with ⟨m2, e⟩
          cases e with
          | none =>
            obtain ⟨pt, ct, hm2⟩ := record_metrics_py_none m st l _ _ m2 hrec
            exact Or.inr ⟨st, pt, ct, rfl, hm2⟩
          | some err => exact Or.inl rfl
        | null => exact Or.inl rfl
        | bool b2 => exact Or.inl rfl
        | num n => exact Or.inl rfl
        | str s => exact Or.inl rfl
        | arr xs => exact Or.inl rfl
      | null => exact Or.inl rfl
      | bool b2 => exact Or.inl rfl
      | num n => exact Or.inl rfl
      | str s => exact Or.inl rfl
      | arr xs => exact Or.inl rfl

/-- Streaming proxying records exactly once with the sent status. -/
lemma recordsOnce_proxy_stream (rid : String) (st : Nat) (lines : List String)
    (l : Nat) (m : Metrics) :
    recordsOnce l m (proxy_stream rid st lines l m) := by
  unfold proxy_stream
  by_cases h5 : 500 ≤ st
  · exact Or.inr ⟨502, 0, 0, by simp [h5, Outcome.status], by simp [h5]⟩
  · rw [if_neg h5]
    exact Or.inr ⟨200, 0, 0, rfl, rfl⟩

/-- A mid-relay streaming failure still records exactly once, with the
translated status the error path sent. -/
lemma recordsOnce_proxy_stream_midfail (rid : String) (st : Nat)
    (lines : List String) (f : StreamFailure) (l : Nat) (m : Metrics) :
    recordsOnce l m (proxy_stream_midfail rid st lines f l m) := by
  unfold proxy_stream_midfail
  by_cases h5 : 500 ≤ st
  · exact Or.inr ⟨502, 0, 0, by simp [h5, Outcome.status], by simp [h5]⟩
  · rw [if_neg h5]
    cases f with
    | timeout => exact Or.inr ⟨504, 0, 0, rfl, rfl⟩
    | connError => exact Or.inr ⟨502, 0, 0, rfl, rfl⟩

/-- Backend dispatch records exactly once with the sent status. -/
lemma recordsOnce_handle_backend (rid : String) (stream : Bool) (env : Env)
    (m : Metrics) : recordsOnce env.latency m (handle_backend rid stream env m) := by
  unfold handle_backend
  split
  · cases env.stream_result with
    | timeout => exact Or.inr ⟨504, 0, 0, rfl, rfl⟩
    | connError => exact Or.inr ⟨502, 0, 0, rfl, rfl⟩
    | resp st lines => exact recordsOnce_proxy_stream rid st lines env.latency m
    | respPartial st lines f =>
      exact recordsOnce_proxy_stream_midfail rid st lines f env.latency m
  · cases env.non_stream_result with
    | timeout => exact Or.inr ⟨504, 0, 0, rfl, rfl⟩
    | connError => exact Or.inr ⟨502, 0, 0, rfl, rfl⟩
    | resp st b => exact recordsOnce_proxy_non_stream rid st b env.latency m

/-- Every completed chat-completions request records exactly once with the
sent status. -/
lemma recordsOnce_step (r : Request) (m : Metrics) :
    recordsOnce r.env.latency m (step r m) := by
  unfold step handle_chat_completions
  repeat' split
  all_goals
    first
    | exact recordsOnce_handle_backend r.rid _ r.env m
    | exact recordsOnce_handle_echo r.rid _ _ r.env.latency m
    | exact Or.inl rfl
    | exact Or.inr ⟨400, 0, 0, rfl, rfl⟩

/-- After a sequence of completed (non-crashing) requests, `request_count`
grows by the number of requests and `error_count` by the number of
outcomes whose sent status was ≥ 400. -/
lemma runRequests_counts (rs : List Request) (m : Metrics)
    (h : ∀ o ∈ (runRequests rs m).snd, o.isCrash = false) :
    (runRequests rs m).fst.request_count = m.request_count + rs.length ∧
    (runRequests rs m).fst.error_count =
      m.error_count + ((runRequests rs m).snd.filter (fun o => o.isError)).length := by
  induction rs generalizing m with
  | nil => simp [runRequests]
  | cons r rest ih =>
    simp only [runRequests] at h ⊢
    have hhead := h (step r m).fst (by simp)
    have htail : ∀ o ∈ (runRequests rest (step r m).snd).snd, o.isCrash = false :=
      fun o ho => h o (by simp [ho])
    rcases recordsOnce_step r m with hcrash | ⟨st, pt, ct, hst, hm2⟩
    · rw [hcrash] at hhead
      cases hhead
    · have hih := ih (step r m).snd htail
      have hfe : Outcome.isError (step r m).fst = decide (400 ≤ st) := by
        rcases hout : (step r m).fst with
            ⟨st', d, ro⟩ | ⟨st', hs2, b2⟩ | ⟨st', hs2, pb, est, ed, ro⟩ | e <;>
          rw [hout] at hst <;> simp [Outcome.status] at hst <;>
          simp [Outcome.isError, hst]
      constructor
      · rw [hih.1, hm2]
        simp [record_metrics]
        omega
      · rw [hih.2, hm2, List.filter_cons, hfe]
        by_cases h4 : 400 ≤ st
        · simp [record_metrics, h4]
          omega
        · simp [record_metrics, h4]

/-- A proxied request whose backend reports a negative prompt-token count. -/
def negTokEnv : Env :=
  { backend_url := some "http://b",
    non_stream_result := .resp 200 (some (.obj [("usage", .obj
      [("prompt_tokens", .num (-1)), ("completion_tokens", .num 0)])])),
    stream_result := .timeout, models_result := .timeout, latency := 0 }

/-- The request driving the C8 counterexample. -/
def negTokReq : Request := ⟨"R", some validChatBody, negTokEnv⟩

/-- C8 counterexample:  The claim says all counters are monotonically
non-decreasing, but one completed (non-crashing, status 200) proxied
request whose backend reports `usage.prompt_tokens = -1` strictly decreases
`prompt_tokens_total`. -/
theorem token_counter_can_decrease :
    (step negTokReq exM).fst.isCrash = false ∧
    (step negTokReq exM).snd.prompt_tokens_total < exM.prompt_tokens_total := by
  exact ⟨rfl, by decide⟩

/-- C8 amended:  Every completed (non-crashing) chat-completions
request updates the metrics by exactly one `_record_metrics` call whose
status is the status actually sent (post-translation); hence after `N`
completed requests `request_count` grows by `N` and `error_count` by the
number of outcomes with sent status ≥ 400; `request_count`, `error_count`
and `total_latency_ms` never decrease, and the token totals never decrease
when the recorded token counts are non-negative (as always in echo mode). -/
theorem metrics_accounting (rs : List Request) (m : Metrics)
    (h : ∀ o ∈ (runRequests rs m).snd, o.isCrash = false) :
    (runRequests rs m).fst.request_count = m.request_count + rs.length ∧
    (runRequests rs m).fst.error_count =
      m.error_count +
        ((runRequests rs m).snd.filter (fun o => o.isError)).length ∧
    (∀ r m2, (step r m2).fst.isCrash = false →
      ∃ st pt ct, (step r m2).fst.status = some st ∧
        (step r m2).snd = record_metrics m2 st r.env.latency pt ct) ∧
    (∀ m2 st l pt ct,
      m2.request_count ≤ (record_metrics m2 st l pt ct).request_count ∧
      m2.error_count ≤ (record_metrics m2 st l pt ct).error_count ∧
      m2.total_latency_ms ≤ (record_metrics m2 st l pt ct).total_latency_ms ∧
      (0 ≤ pt →
        m2.prompt_tokens_total ≤ (record_metrics m2 st l pt ct).prompt_tokens_total) ∧
      (0 ≤ ct →
        m2.completion_tokens_total ≤
          (record_metrics m2 st l pt ct).completion_tokens_total)) := by
  obtain ⟨h1, h2⟩ := runRequests_counts rs m h
  refine ⟨h1, h2, ?_, ?_⟩
  · intro r m2 hnc
    rcases recordsOnce_step r m2 with hcrash | ⟨st, pt, ct, hst, hm2⟩
    · rw [hcrash] at hnc
      cases hnc
    · exact ⟨st, pt, ct, hst, hm2⟩
  · intro m2 st l pt ct
    refine ⟨?_, ?_, ?_, fun hp => ?_, fun hc => ?_⟩ <;>
      · dsimp only [record_metrics]
        first
        | omega
        | (split <;> omega)

/-- A chat-completions request that validates and echoes (status 200). -/
def reqOk : Request := ⟨"R1", some validChatBody, exEnv⟩

/-- A chat-completions request with no `messages` field (status 400). -/
def reqBad : Request := ⟨"R2", some (.obj []), exEnv⟩

/-- Witness for C8 (amended): one success and one validation failure give
`request_count = 2` and `error_count = 1`. -/
theorem metrics_accounting_witness :
    (runRequests [reqOk, reqBad] exM).fst.request_count = 2 ∧
    (runRequests [reqOk, reqBad] exM).fst.error_count = 1 :=
  ⟨(metrics_accounting [reqOk, reqBad] exM (by decide)).1,
   (metrics_accounting [reqOk, reqBad] exM (by decide)).2.1⟩

end Gateway

